import Mathlib

/-!
Shallow embedding of the Telegram-Book shop bot (src/main.py; src/shop.py is the
same program with Khmer display text and two cosmetic UX differences).

Modelling conventions:
* The SQLite database is a record of row lists (`DB`); each persistence-gateway
  function of main.py becomes a pure transformer of `DB`.  A whole function body
  runs inside one connection with a single `commit`, so one Lean function models
  one transaction.
* Money is modelled in integer cents (`Nat`): every catalog price is a whole
  number of cents and the only arithmetic the program performs on prices is
  `price * quantity` and sums, which are exact in binary floating point for this
  catalog (e.g. the double products `1.7 * 3` and `5.1` are bit-identical), so
  the cent model agrees with Python float semantics on all reachable values.
* Timestamps are seconds; SQLite `date(t)` becomes the day index `t / 86400`,
  and `order_date >= date('now','-k days')` becomes a comparison against the
  start of that day.
* Python string parsing (`int(...)`, `split("_")`, `startswith`) is modelled by
  structurally recursive char-list functions so that concrete instances reduce
  in the kernel.
* Outbound chat messages are collected in a list of strings; texts that a claim
  depends on are reproduced exactly (from main.py), purely decorative texts are
  abbreviated to short markers.
-/

/-- The single static administrator identity (main.py line 28). -/
def ADMIN_ID : Nat := 1273972944

/-- Orders shown per admin page (main.py line 44). -/
def ORDERS_PER_PAGE : Nat := 10

/-- Users shown per admin page (main.py line 45). -/
def USERS_PER_PAGE : Nat := 15

/-- The fixed denial text sent by the `admin_only` decorator (main.py line 422). -/
def DENIAL_MESSAGE : String := "⚠️ អ្នកគ្មានសិទ្ធិប្រើប្រាស់ផ្នែកនេះទេ!"

/-- Text sent by the global error handler (main.py line 1917), reached when a
handler raises an uncaught exception. -/
def ERROR_MESSAGE : String := "❌ **Error occurred.** Please try again or contact developer!"

/-- One catalog entry of the static `PRODUCTS` dict (main.py lines 31-36).
`price` is in cents. -/
structure CatalogEntry where
  pid : String
  name : String
  price : Nat
  emoji : String
deriving DecidableEq, Repr

/-- The static catalog, in insertion order (main.py lines 31-36). -/
def PRODUCTS : List CatalogEntry :=
  [⟨"math_book", "Math Book", 170, "📐"⟩,
   ⟨"human_society", "Human & Society", 199, "👥"⟩,
   ⟨"business", "Principle of Business", 199, "💼"⟩,
   ⟨"computer", "Computer Book", 250, "💻"⟩]

/-- A row of the `orders` table (main.py lines 76-87).  `total_price` in cents. -/
structure OrderRow where
  order_id : Nat
  user_id : Nat
  product_name : String
  quantity : Nat
  total_price : Nat
  status : String
  payment_method : Option String
  payment_proof : Option String
  order_date : Nat
  admin_notes : Option String
deriving DecidableEq, Repr

/-- A row of the `users` table (main.py lines 64-73).  `total_spent` in cents. -/
structure UserRow where
  user_id : Nat
  username : Option String
  first_name : String
  last_name : Option String
  phone : Option String
  group_name : Option String
  registration_date : Nat
  total_orders : Nat
  total_spent : Nat
deriving DecidableEq, Repr

/-- A row of the `products` table (main.py lines 95-101). -/
structure ProductRow where
  product_id : String
  name : String
  price : Nat
  emoji : String
  stock : Nat
  total_sold : Nat
deriving DecidableEq, Repr

/-- The whole SQLite database.  `next_order_id` models the AUTOINCREMENT
counter of `orders.order_id`. -/
structure DB where
  users : List UserRow
  orders : List OrderRow
  products : List ProductRow
  next_order_id : Nat
deriving DecidableEq, Repr

/-- The empty database with the autoincrement counter at 1. -/
def emptyDB : DB := ⟨[], [], [], 1⟩

/-! ### Kernel-reducible string helpers (Python `int`, `split`, `startswith`) -/

/-- Whitespace stripped by Python `int()` (ASCII fragment). -/
def isPySpace (c : Char) : Bool :=
  c == ' ' || c == '\t' || c == '\n' || c == '\r' || c == '\x0b' || c == '\x0c'

/-- Digit-run parser for Python `int()`: digits with single underscores allowed
only between digits.  `prev` records whether the previous char was a digit. -/
def pyDigitsCore : Nat → Bool → List Char → Option Nat
  | acc, prev, [] => if prev then some acc else none
  | acc, prev, c :: cs =>
    if c.isDigit then pyDigitsCore (acc * 10 + (c.toNat - 48)) true cs
    else if c == '_' then
      if prev then pyDigitsCore acc false cs else none
    else none

/-- Python `int(str)`: strip surrounding whitespace, optional sign, digit run
(ASCII model; Unicode digits are out of scope).  `none` models `ValueError`. -/
def pyInt? (s : String) : Option Int :=
  let cs := ((s.toList.dropWhile isPySpace).reverse.dropWhile isPySpace).reverse
  match cs with
  | '+' :: rest => (pyDigitsCore 0 false rest).map (fun n => (n : Int))
  | '-' :: rest => (pyDigitsCore 0 false rest).map (fun n => -(n : Int))
  | rest => (pyDigitsCore 0 false rest).map (fun n => (n : Int))

/-- `s.startswith(pre)`. -/
def strStartsWith (s pre : String) : Bool :=
  pre.toList.isPrefixOf s.toList

/-- Helper for `splitUnderscore`: accumulate the current piece (reversed). -/
def splitUnderscoreAux : List Char → List Char → List (List Char)
  | acc, [] => [acc.reverse]
  | acc, c :: cs =>
    if c == '_' then acc.reverse :: splitUnderscoreAux [] cs
    else splitUnderscoreAux (c :: acc) cs

/-- Python `s.split("_")` (agrees with it on every input: empty pieces are kept). -/
def splitUnderscore (s : String) : List String :=
  (splitUnderscoreAux [] s.toList).map (fun cs => String.mk cs)

/-- ASCII lower-casing, modelling SQLite `LIKE` case folding and `str.lower`. -/
def lowerChar (c : Char) : Char :=
  if 'A' ≤ c ∧ c ≤ 'Z' then Char.ofNat (c.toNat + 32) else c

/-- Substring test used to model `column LIKE '%needle%'` (case-insensitive). -/
def isInfixList : List Char → List Char → Bool
  | n, [] => n.isEmpty
  | n, c :: cs => n.isPrefixOf (c :: cs) || isInfixList n cs

/-- `hay LIKE '%needle%'` with SQLite's ASCII case-insensitivity. -/
def likeContains (needle hay : String) : Bool :=
  isInfixList (needle.toList.map lowerChar) (hay.toList.map lowerChar)

/-! ### Persistence gateway (main.py lines 58-413) -/

/-- `add_user` (main.py lines 112-121): `INSERT OR IGNORE`, so an existing row
is left untouched.  `now` models the `CURRENT_TIMESTAMP` default. -/
def add_user (db : DB) (now uid : Nat) (username : Option String)
    (first_name : String) (last_name : Option String) : DB :=
  if db.users.any (fun u => u.user_id == uid) then db
  else { db with users := db.users ++
          [⟨uid, username, first_name, last_name, none, none, now, 0, 0⟩] }

/-- `update_user_info` (main.py lines 123-131). -/
def update_user_info (db : DB) (uid : Nat) (group_name phone : String) : DB :=
  { db with users := db.users.map (fun u =>
      if u.user_id == uid then { u with group_name := some group_name, phone := some phone }
      else u) }

/-- The row inserted by `create_order` for a fresh order. -/
def newOrderRow (oid uid : Nat) (product_name : String) (quantity total_price now : Nat) :
    OrderRow :=
  ⟨oid, uid, product_name, quantity, total_price, "pending", none, none, now, none⟩

/-- `create_order` (main.py lines 133-160): one transaction inserting the order
row, bumping the owner's aggregates and the product's `total_sold`, then
committing.  Returns `lastrowid` and the new database. -/
def create_order (db : DB) (now uid : Nat) (product_name : String)
    (quantity total_price : Nat) : Nat × DB :=
  let oid := db.next_order_id
  (oid,
   { db with
     orders := db.orders ++ [newOrderRow oid uid product_name quantity total_price now],
     users := db.users.map (fun u =>
       if u.user_id == uid then
         { u with total_orders := u.total_orders + 1, total_spent := u.total_spent + total_price }
       else u),
     products := db.products.map (fun p =>
       if p.name == product_name then { p with total_sold := p.total_sold + quantity } else p),
     next_order_id := oid + 1 })

/-- `update_order_payment` (main.py lines 162-170): unconditionally sets
payment method, payment proof and `status = 'awaiting_verification'` on the
targeted order.  `oid : Int` because callers pass Python ints or (via SQLite
numeric affinity) strings converted to integers. -/
def update_order_payment (db : DB) (oid : Int) (payment_method : String)
    (payment_proof : Option String) : DB :=
  { db with orders := db.orders.map (fun o =>
      if (o.order_id : Int) == oid then
        { o with payment_method := some payment_method, payment_proof := payment_proof,
                 status := "awaiting_verification" }
      else o) }

/-- `update_order_payment` as invoked with a raw string id (handle_payment_option
passes `query.data.split("_")[2]` unparsed; SQLite numeric affinity converts it,
and a non-numeric string matches no row). -/
def update_order_payment_sql (db : DB) (idStr : String) (payment_method : String)
    (payment_proof : Option String) : DB :=
  match pyInt? idStr with
  | some oid => update_order_payment db oid payment_method payment_proof
  | none => db

/-- `update_order_status` (main.py lines 253-269): set status (and the note when
one is given), then fetch the owning user id of the targeted order (`none` when
the order id does not exist). -/
def update_order_status (db : DB) (oid : Int) (status : String) (notes : Option String) :
    DB × Option Nat :=
  let db' := { db with orders := db.orders.map (fun o =>
      if (o.order_id : Int) == oid then
        match notes with
        | some n => { o with status := status, admin_notes := some n }
        | none => { o with status := status }
      else o) }
  (db', (db'.orders.find? (fun o => (o.order_id : Int) == oid)).map (fun o => o.user_id))

/-- `get_order_details` (main.py lines 241-251): the order joined with its owner;
`none` when either side of the join is missing. -/
def get_order_details (db : DB) (oid : Int) : Option (OrderRow × UserRow) :=
  match db.orders.find? (fun o => (o.order_id : Int) == oid) with
  | none => none
  | some o => (db.users.find? (fun u => u.user_id == o.user_id)).map (fun u => (o, u))

/-! ### Filters, join, ordering and pagination (main.py lines 172-239) -/

/-- SQLite `date(t)`: the day index of a timestamp. -/
def dayOf (t : Nat) : Nat := t / 86400

/-- The status filter clause: Python skips it when the filter is falsy or
`'all'` (main.py lines 180-182). -/
def statusMatch (status_filter : Option String) (s : String) : Bool :=
  match status_filter with
  | none => true
  | some f => f == "all" || s == f

/-- The date filter clause (main.py lines 184-190): `today` compares day
indices, `week`/`month` compare against the start of the day 7/30 days ago;
an unrecognized value adds no clause. -/
def dateMatch (now : Nat) (date_filter : Option String) (t : Nat) : Bool :=
  match date_filter with
  | none => true
  | some f =>
    if f == "today" then dayOf t == dayOf now
    else if f == "week" then decide (dayOf now - 7 ≤ dayOf t)
    else if f == "month" then decide (dayOf now - 30 ≤ dayOf t)
    else true

/-- The WHERE clause of `get_orders_count` (status and date only — the count
query accepts no search parameter). -/
def orderWhere (now : Nat) (status_filter date_filter : Option String) (o : OrderRow) : Bool :=
  statusMatch status_filter o.status && dateMatch now date_filter o.order_date

/-- `get_orders_count` (main.py lines 172-195). -/
def get_orders_count (db : DB) (now : Nat) (status_filter date_filter : Option String) : Nat :=
  (db.orders.filter (fun o => orderWhere now status_filter date_filter o)).length

/-- One projected row of the order list query (main.py lines 205-210). -/
structure OrderListing where
  order_id : Nat
  first_name : String
  group_name : Option String
  phone : Option String
  product_name : String
  quantity : Nat
  total_price : Nat
  status : String
  payment_method : Option String
  order_date : Nat
  admin_notes : Option String
deriving DecidableEq, Repr

/-- Projection of a joined (order, user) pair. -/
def mkListing (o : OrderRow) (u : UserRow) : OrderListing :=
  ⟨o.order_id, u.first_name, u.group_name, u.phone, o.product_name, o.quantity,
   o.total_price, o.status, o.payment_method, o.order_date, o.admin_notes⟩

/-- `FROM orders o JOIN users u ON o.user_id = u.user_id` (inner join). -/
def joinRows (users : List UserRow) : List OrderRow → List OrderListing
  | [] => []
  | o :: rest =>
    (users.filter (fun u => u.user_id == o.user_id)).map (mkListing o) ++ joinRows users rest

/-- The search clause (main.py lines 226-230): case-insensitive substring match
against order id (coerced to text), buyer name, group, or product name, OR-ed;
a NULL group matches nothing. -/
def searchMatch (search_query : Option String) (r : OrderListing) : Bool :=
  match search_query with
  | none => true
  | some s =>
    likeContains s (toString r.order_id) || likeContains s r.first_name ||
    (match r.group_name with
     | some g => likeContains s g
     | none => false) ||
    likeContains s r.product_name

/-- The full WHERE clause of the order list query. -/
def listingWhere (now : Nat) (status_filter date_filter search_query : Option String)
    (r : OrderListing) : Bool :=
  statusMatch status_filter r.status && dateMatch now date_filter r.order_date &&
    searchMatch search_query r

/-- Descending insertion by a numeric key (models `ORDER BY ... DESC`; SQLite
leaves the order of equal keys unspecified, this model fixes one). -/
def insertDescBy {α : Type} (key : α → Nat) (a : α) : List α → List α
  | [] => [a]
  | b :: bs => if key b ≤ key a then a :: b :: bs else b :: insertDescBy key a bs

/-- Descending sort by a numeric key. -/
def sortDescBy {α : Type} (key : α → Nat) : List α → List α
  | [] => []
  | a :: as => insertDescBy key a (sortDescBy key as)

/-- SQLite `LIMIT limit OFFSET offset`: a negative offset behaves like 0. -/
def sqliteWindow {α : Type} (limit : Nat) (offset : Int) (l : List α) : List α :=
  (l.drop offset.toNat).take limit

/-- The SQL of `get_orders_paginated` with the page size as the parameter it is
bound to in the query (`LIMIT ? OFFSET ?`); the Python function always binds
`ORDERS_PER_PAGE`, see `get_orders_paginated`.  `page : Int`: the handler
parses it from callback data with `int()`. -/
def get_orders_paginated_with (db : DB) (now : Nat) (page : Int) (pageSize : Nat)
    (status_filter date_filter search_query : Option String) : List OrderListing :=
  sqliteWindow pageSize ((page - 1) * (pageSize : Int))
    (sortDescBy (fun r => r.order_date)
      ((joinRows db.users db.orders).filter
        (fun r => listingWhere now status_filter date_filter search_query r)))

/-- `get_orders_paginated` (main.py lines 197-239). -/
def get_orders_paginated (db : DB) (now : Nat) (page : Int)
    (status_filter date_filter search_query : Option String) : List OrderListing :=
  get_orders_paginated_with db now page ORDERS_PER_PAGE status_filter date_filter search_query

/-- `get_user_orders` (main.py lines 271-283), newest first. -/
def get_user_orders (db : DB) (uid : Nat) : List OrderRow :=
  sortDescBy (fun o => o.order_date) (db.orders.filter (fun o => o.user_id == uid))

/-! ### Statistics (main.py lines 368-413) -/

/-- The dict returned by `get_statistics`.  Revenue fields in cents. -/
structure Statistics where
  total_orders : Nat
  status_counts : List (String × Nat)
  revenue : Nat
  total_users : Nat
  today_orders : Nat
  today_revenue : Nat
  product_sales : List (String × Nat)
deriving DecidableEq, Repr

/-- Sum of `total_price` over a list of orders (cents). -/
def sumPrices (l : List OrderRow) : Nat :=
  (l.map (fun o => o.total_price)).sum

/-- `get_statistics` (main.py lines 368-413).  Both revenue sums are restricted
to `status = 'completed'`; `status_counts` models the GROUP BY dict;
`product_sales` sums quantities of completed orders per product, descending. -/
def get_statistics (db : DB) (now : Nat) : Statistics :=
  let completed := db.orders.filter (fun o => o.status == "completed")
  { total_orders := db.orders.length,
    status_counts := ((db.orders.map (fun o => o.status)).dedup).map (fun s =>
      (s, (db.orders.filter (fun o => o.status == s)).length)),
    revenue := sumPrices completed,
    total_users := db.users.length,
    today_orders := (db.orders.filter (fun o => dayOf o.order_date == dayOf now)).length,
    today_revenue := sumPrices (db.orders.filter (fun o =>
      dayOf o.order_date == dayOf now && o.status == "completed")),
    product_sales := sortDescBy (fun pr => pr.2)
      (((completed.map (fun o => o.product_name)).dedup).map (fun n =>
        (n, ((completed.filter (fun o => o.product_name == n)).map (fun o => o.quantity)).sum))) }

/-! ### Admin console: order listing view (main.py lines 1339-1447) -/

/-- What `show_admin_orders` computes before rendering: the (search-blind)
total, the page count, the page it settles on after clamping, and the rows. -/
structure AdminOrdersView where
  total_orders : Nat
  total_pages : Nat
  page : Int
  rows : List OrderListing
deriving DecidableEq, Repr

/-- `show_admin_orders` (main.py lines 1339-1381): counts with status and date
filters only (the count query takes no search text), computes
`total_pages = max(1, ceil(count / ORDERS_PER_PAGE))`, clamps only pages
greater than `total_pages`, then windows the (search-filtered) list. -/
def show_admin_orders (db : DB) (now : Nat) (page : Int) (status_filter : String)
    (date_filter search_query : Option String) : AdminOrdersView :=
  let total_orders := get_orders_count db now (some status_filter) date_filter
  let total_pages := max 1 ((total_orders + (ORDERS_PER_PAGE - 1)) / ORDERS_PER_PAGE)
  let page := if page > (total_pages : Int) then (total_pages : Int) else page
  { total_orders := total_orders,
    total_pages := total_pages,
    page := page,
    rows := get_orders_paginated db now page (some status_filter) date_filter search_query }

/-! ### Handlers.  Each handler returns the new database, the new per-user
session dict (`context.user_data`) and the outbound messages. -/

/-- The per-user session dict `context.user_data`.  `awaiting_proof_for` holds
the raw string from the callback data (the code never parses it);
`adding_note_for` holds a parsed int. -/
structure UserData where
  product_id : Option String
  product_name : Option String
  price : Option Nat
  product_emoji : Option String
  name : Option String
  group : Option String
  phone : Option String
  quantity : Option Nat
  order_id : Option Nat
  awaiting_proof_for : Option String
  adding_note_for : Option Int
  awaiting_search : Bool
deriving DecidableEq, Repr

/-- A fresh, empty session. -/
def emptyUD : UserData :=
  ⟨none, none, none, none, none, none, none, none, none, none, none, false⟩

/-- Result of running one handler. -/
structure Res where
  db : DB
  ud : UserData
  msgs : List String
deriving DecidableEq, Repr

/-- `admin_only` (main.py lines 416-425): a non-matching identity gets the
fixed denial message and the wrapped handler is never entered.  Handlers are
modelled as identity-and-database transformers. -/
def admin_only (handler : Nat → DB → DB × List String) (uid : Nat) (db : DB) :
    DB × List String :=
  if uid = ADMIN_ID then handler uid db else (db, [DENIAL_MESSAGE])

/-- `handle_admin_order_action` (main.py lines 1733-1886).  It is registered
without the `admin_only` decorator (main.py line 1975) and its body never reads
`update.effective_user`, so `uid` is accepted and ignored.  Confirm / reject /
complete unconditionally report success; a missing order id on the view and
contact branches produces no message at all.  Notification texts to the buyer
are abbreviated; `none` legs of `int()` model the uncaught `ValueError` routed
to the global error handler. -/
def handle_admin_order_action (uid : Nat) (db : DB) (ud : UserData) (data : String) : Res :=
  let parts := splitUnderscore data
  if strStartsWith data "admin_view_" then
    match pyInt? (parts.getD 2 "") with
    | none => ⟨db, ud, [ERROR_MESSAGE]⟩
    | some oid =>
      match get_order_details db oid with
      | some _ => ⟨db, ud, ["ORDER DETAILS"]⟩
      | none => ⟨db, ud, []⟩
  else if strStartsWith data "admin_confirm_" then
    match pyInt? (parts.getD 2 "") with
    | none => ⟨db, ud, [ERROR_MESSAGE]⟩
    | some oid =>
      let r := update_order_status db oid "confirmed" (some "Confirmed by admin")
      ⟨r.1, ud,
       ["✅ **Order #" ++ toString oid ++ " confirmed!**"] ++
         (match r.2 with
          | some _ => ["NOTIFY BUYER: confirmed"]
          | none => [])⟩
  else if strStartsWith data "admin_reject_" then
    match pyInt? (parts.getD 2 "") with
    | none => ⟨db, ud, [ERROR_MESSAGE]⟩
    | some oid =>
      let r := update_order_status db oid "rejected" (some "Rejected by admin")
      ⟨r.1, ud,
       ["❌ **Order #" ++ toString oid ++ " rejected!**"] ++
         (match r.2 with
          | some _ => ["NOTIFY BUYER: rejected"]
          | none => [])⟩
  else if strStartsWith data "admin_complete_" then
    match pyInt? (parts.getD 2 "") with
    | none => ⟨db, ud, [ERROR_MESSAGE]⟩
    | some oid =>
      let r := update_order_status db oid "completed" (some "Completed by admin")
      ⟨r.1, ud,
       ["🎉 **Order #" ++ toString oid ++ " completed!**"] ++
         (match r.2 with
          | some _ => ["NOTIFY BUYER: completed"]
          | none => [])⟩
  else if strStartsWith data "admin_contact_" then
    match pyInt? (parts.getD 2 "") with
    | none => ⟨db, ud, [ERROR_MESSAGE]⟩
    | some oid =>
      match get_order_details db oid with
      | some _ => ⟨db, ud, ["CONTACT INFO"]⟩
      | none => ⟨db, ud, []⟩
  else if strStartsWith data "admin_note_" then
    match pyInt? (parts.getD 2 "") with
    | none => ⟨db, ud, [ERROR_MESSAGE]⟩
    | some oid => ⟨db, { ud with adding_note_for := some oid }, ["PROMPT FOR NOTE"]⟩
  else ⟨db, ud, []⟩

/-- `handle_payment_option` (main.py lines 1027-1100).  The KHQR branch only
updates the order when the QR image fetch succeeds (`khqr_ok`); the cash branch
updates unconditionally; `upload_proof` stores the raw id string in the session.
All three pass the id string straight to SQL (numeric affinity). -/
def handle_payment_option (db : DB) (ud : UserData) (khqr_ok : Bool) (data : String) : Res :=
  let parts := splitUnderscore data
  if strStartsWith data "pay_khqr_" then
    let order_id := parts.getD 2 ""
    if khqr_ok then
      ⟨update_order_payment_sql db order_id "KHQR" none, ud,
       ["KHQR IMAGE", "✅ **Selected KHQR Payment**"]⟩
    else ⟨db, ud, ["KHQR LINK FALLBACK"]⟩
  else if strStartsWith data "pay_cash_" then
    let order_id := parts.getD 2 ""
    ⟨update_order_payment_sql db order_id "Cash" none, ud, ["💵 **Selected Pay at Class**"]⟩
  else if strStartsWith data "upload_proof_" then
    let order_id := parts.getD 2 ""
    ⟨db, { ud with awaiting_proof_for := some order_id }, ["📎 **Please send payment screenshot**"]⟩
  else if data == "back_to_main" then ⟨db, ud, ["BACK TO MAIN"]⟩
  else ⟨db, ud, []⟩

/-- `handle_payment_proof` (main.py lines 1103-1160).  Python truthiness: a
missing or empty marker asks the user to select proof submission first.
`forward_ok` models whether forwarding the photo to the admin succeeds; the
order update happens after the forward inside the same `try`. -/
def handle_payment_proof (uid : Nat) (db : DB) (ud : UserData)
    (hasPhoto forward_ok : Bool) : Res :=
  if (ud.awaiting_proof_for.getD "") == "" then
    ⟨db, ud, ["PLEASE SELECT PROOF SUBMISSION FIRST"]⟩
  else
    let order_id := ud.awaiting_proof_for.getD ""
    if hasPhoto then
      if forward_ok then
        ⟨update_order_payment_sql db order_id "Bank Transfer" (some "proof_provided"),
         { ud with awaiting_proof_for := none },
         ["FORWARD PROOF TO ADMIN", "✅ **Payment screenshot received!**",
          "NOTIFY ADMIN: review"]⟩
      else ⟨db, ud, ["❌ Error sending screenshot. Please try again."]⟩
    else ⟨db, ud, ["Please send payment screenshot image."]⟩

/-! ### Order conversation engine (main.py lines 48, 710-1000) -/

/-- The conversation states (`NAME, GROUP, PHONE, QUANTITY, CONFIRMATION,
PAYMENT = range(6)`), plus `ConversationHandler.END`. -/
inductive ConvState
  | NAME
  | GROUP
  | PHONE
  | QUANTITY
  | CONFIRMATION
  | PAYMENT
  | ConvEnd
deriving DecidableEq, Repr

/-- The anchored entry pattern of the conversation handler (main.py line 1935):
the regex `(choose_product|product_|view_all_prices)` between `^` and `$`
matches only these three exact strings — in particular no real
`product_<id>` callback ever matches it. -/
def conv_entry_matches (data : String) : Bool :=
  data == "choose_product" || data == "product_" || data == "view_all_prices"

/-- `select_product` (main.py lines 710-764).  The outer `none` models an
uncaught exception: for `product_<id>` data the code takes
`query.data.split("_")[1]` as the product id — for `product_math_book` that is
`"math"` — and indexes the `PRODUCTS` dict with it, raising `KeyError` when
absent.  The inner `Option ConvState` is the handler's return value (`none` =
Python `None`, no state change). -/
def select_product (data : String) (ud : UserData) : Option (Option ConvState × UserData) :=
  if data == "choose_product" then some (none, ud)
  else if data == "view_all_prices" then some (none, ud)
  else if strStartsWith data "product_" then
    let product_id := (splitUnderscore data).getD 1 ""
    match PRODUCTS.find? (fun p => p.pid == product_id) with
    | some product =>
      some (some ConvState.NAME,
        { ud with product_id := some product_id, product_name := some product.name,
                  price := some product.price, product_emoji := some product.emoji })
    | none => none
  else if data == "back_to_main" then some (some ConvState.ConvEnd, ud)
  else some (none, ud)

/-- `get_name` (main.py lines 766-774). -/
def get_name (text : String) (ud : UserData) : ConvState × UserData :=
  (ConvState.GROUP, { ud with name := some text })

/-- `get_group` (main.py lines 776-785). -/
def get_group (text : String) (ud : UserData) : ConvState × UserData :=
  (ConvState.PHONE, { ud with group := some text })

/-- `get_phone` (main.py lines 787-809): `/skip` substitutes the fixed
placeholder and the collected group/phone are persisted immediately.  `none`
models the `KeyError` raised when no group was collected (unreachable in a
well-formed flow). -/
def get_phone (uid : Nat) (text : String) (db : DB) (ud : UserData) :
    Option (ConvState × UserData × DB) :=
  match ud.group with
  | none => none
  | some g =>
    let phone := if text == "/skip" then "Not specified" else text
    some (ConvState.QUANTITY, { ud with phone := some phone },
      update_user_info db uid g phone)

/-- `select_quantity` (main.py lines 811-835): a `qty_<n>` button stores `n`
and advances to CONFIRMATION; `qty_custom` stays in QUANTITY prompting for
text.  `none` models `int()` raising on malformed data. -/
def select_quantity (data : String) (ud : UserData) : Option (ConvState × UserData) :=
  if strStartsWith data "qty_" then
    if data == "qty_custom" then some (ConvState.QUANTITY, ud)
    else
      match pyInt? ((splitUnderscore data).getD 1 "") with
      | some q => some (ConvState.CONFIRMATION, { ud with quantity := some q.toNat })
      | none => none
  else if data == "back_to_products" then some (ConvState.ConvEnd, ud)
  else some (ConvState.QUANTITY, ud)

/-- `get_custom_quantity` (main.py lines 837-853; shop.py lines 836-852 is
identical up to message language).  `int(text)` failing is caught
(`ValueError` branch), quantities below 1 or above 50 re-prompt and stay in
QUANTITY, and a valid quantity is recorded before advancing to CONFIRMATION.
The order-summary text rendered on success reads the session's product fields
(always set once QUANTITY is reachable) and is abbreviated here.  The function
is total: no input makes it throw. -/
def get_custom_quantity (text : String) (ud : UserData) : ConvState × UserData × List String :=
  match pyInt? text with
  | none => (ConvState.QUANTITY, ud, ["❌ Please type correct number (example: 1, 2, 3, ...)"])
  | some quantity =>
    if quantity < 1 then (ConvState.QUANTITY, ud, ["❌ Please type number greater than 0"])
    else if quantity > 50 then
      (ConvState.QUANTITY, ud, ["❌ Too many quantity, please contact admin"])
    else (ConvState.CONFIRMATION, { ud with quantity := some quantity.toNat }, ["ORDER SUMMARY"])

/-- `confirm_order` (main.py lines 903-1000): on `confirm_order` the order is
created with `price * quantity`; the payment-instruction delivery (QR image or
text fallback) and the admin notification never touch the database and are
abbreviated as markers.  `none` models the `KeyError` legs for a session
missing the product snapshot or quantity. -/
def confirm_order (uid now : Nat) (data : String) (db : DB) (ud : UserData) :
    Option (ConvState × UserData × DB × List String) :=
  if data == "confirm_order" then
    match ud.product_name, ud.quantity, ud.price with
    | some pname, some quantity, some price =>
      let r := create_order db now uid pname quantity (price * quantity)
      some (ConvState.ConvEnd, { ud with order_id := some r.1 }, r.2,
        ["PAYMENT INSTRUCTIONS", "NOTIFY ADMIN: new order"])
    | _, _, _ => none
  else if data == "edit_order" then
    some (ConvState.ConvEnd, ud, db, ["WHAT TO EDIT"])
  else if data == "cancel_order" then
    some (ConvState.ConvEnd, ud, db, ["❌ **Order cancelled.**"])
  else none

/-! ### The Math-Book scenario (testable property of §8 of the spec) -/

/-- The session as it would stand after a successful Math-Book selection: the
snapshot `select_product` would store had its id parsing worked
(`PRODUCTS["math_book"]`: name "Math Book", price 170 cents, 📐). -/
def mathBookSnapshot : UserData :=
  { emptyUD with product_id := some "math_book", product_name := some "Math Book",
                 price := some 170, product_emoji := some "📐" }

/-- The scenario database: user 7 ("Dara") registered at time 0. -/
def scenarioDB : DB := add_user emptyDB 0 7 (some "dara") "Dara" none

/-- The remainder of the Math-Book scenario, starting from the stored product
snapshot: name "Dara", group "A1", `/skip` phone, quantity 3 via the `qty_3`
button, then confirmation at time 100.  Downstream handlers are exactly the
modelled source functions; `Option` failures propagate. -/
def mathBookScenarioRest : Option DB := do
  let s2 := get_name "Dara" mathBookSnapshot
  let s3 := get_group "A1" s2.2
  let s4 ← get_phone 7 "/skip" scenarioDB s3.2
  let s5 ← select_quantity "qty_3" s4.2.1
  let s6 ← confirm_order 7 100 "confirm_order" s4.2.2 s5.2
  pure s6.2.2.1

/-! ### Helper lemmas -/

theorem length_insertDescBy {α : Type} (key : α → Nat) (a : α) (l : List α) :
    (insertDescBy key a l).length = l.length + 1 := by
  induction l with
  | nil => rfl
  | cons b bs ih =>
    simp only [insertDescBy]
    split
    · simp
    · simp [ih]

theorem length_sortDescBy {α : Type} (key : α → Nat) (l : List α) :
    (sortDescBy key l).length = l.length := by
  induction l with
  | nil => rfl
  | cons a as ih => simp [sortDescBy, length_insertDescBy, ih]

theorem listingWhere_mkListing (now : Nat) (sF dF : Option String) (o : OrderRow) (u : UserRow) :
    listingWhere now sF dF none (mkListing o u) = orderWhere now sF dF o := by
  simp [listingWhere, orderWhere, searchMatch, mkListing]

theorem block_filter_length (now : Nat) (sF dF : Option String) (o : OrderRow)
    (l : List UserRow) :
    ((l.map (mkListing o)).filter (fun r => listingWhere now sF dF none r)).length
      = if orderWhere now sF dF o then l.length else 0 := by
  induction l with
  | nil => simp
  | cons u us ih =>
    simp only [List.map_cons, List.filter_cons, listingWhere_mkListing]
    cases hw : orderWhere now sF dF o
    · simpa [hw] using ih
    · simpa [hw] using ih

theorem joinRows_filter_length_eq (users : List UserRow) (now : Nat) (sF dF : Option String) :
    ∀ orders : List OrderRow,
      (∀ o ∈ orders, (users.filter (fun u => u.user_id == o.user_id)).length = 1) →
      ((joinRows users orders).filter (fun r => listingWhere now sF dF none r)).length
        = (orders.filter (fun o => orderWhere now sF dF o)).length := by
  intro orders
  induction orders with
  | nil => intro _; rfl
  | cons o rest ih =>
    intro h
    have ho := h o (List.mem_cons_self o rest)
    have hrest := ih (fun x hx => h x (List.mem_cons_of_mem _ hx))
    simp only [joinRows, List.filter_append, List.length_append, hrest, block_filter_length,
      List.filter_cons, ho]
    cases hw : orderWhere now sF dF o
    · simp [hw]
    · simp only [hw, if_true, List.length_cons]
      omega

theorem joinRows_filter_length_ge (users : List UserRow) (now : Nat) (sF dF : Option String) :
    ∀ orders : List OrderRow,
      (∀ o ∈ orders, 1 ≤ (users.filter (fun u => u.user_id == o.user_id)).length) →
      (orders.filter (fun o => orderWhere now sF dF o)).length
        ≤ ((joinRows users orders).filter (fun r => listingWhere now sF dF none r)).length := by
  intro orders
  induction orders with
  | nil => intro _; simp
  | cons o rest ih =>
    intro h
    have ho := h o (List.mem_cons_self o rest)
    have hrest := ih (fun x hx => h x (List.mem_cons_of_mem _ hx))
    simp only [joinRows, List.filter_append, List.length_append, block_filter_length,
      List.filter_cons]
    cases hw : orderWhere now sF dF o <;> simp [hw] <;> omega

theorem map_update_no_match {α : Type} (f : α → α) (p : α → Bool) (l : List α)
    (h : ∀ a ∈ l, p a = false) : (l.map fun a => if p a then f a else a) = l := by
  induction l with
  | nil => rfl
  | cons a as ih =>
    have ha := h a (List.mem_cons_self a as)
    simp [ha, ih (fun x hx => h x (List.mem_cons_of_mem _ hx))]

theorem sumPrices_append (l1 l2 : List OrderRow) :
    sumPrices (l1 ++ l2) = sumPrices l1 + sumPrices l2 := by
  simp [sumPrices]

/-- A user's aggregate counters agree with the count and sum of that user's
orders (the invariant of §3 of the spec). -/
def userAggConsistent (db : DB) : Prop :=
  ∀ u ∈ db.users,
    u.total_orders = (db.orders.filter (fun o => o.user_id == u.user_id)).length ∧
    u.total_spent = sumPrices (db.orders.filter (fun o => o.user_id == u.user_id))

/-! ### Claim C4 -/

/-- C4: any custom quantity input that parses as an integer in [1,50] is
recorded and the conversation advances to CONFIRMATION; non-integer input and
integers outside [1,50] leave the session unchanged and stay in QUANTITY
(re-prompt).  `get_custom_quantity` is a total function, so no input throws. -/
theorem get_custom_quantity_spec (text : String) (ud : UserData) :
    (∀ q : Int, pyInt? text = some q → 1 ≤ q → q ≤ 50 →
      get_custom_quantity text ud
        = (ConvState.CONFIRMATION, { ud with quantity := some q.toNat }, ["ORDER SUMMARY"])) ∧
    (∀ q : Int, pyInt? text = some q → (q < 1 ∨ 50 < q) →
      (get_custom_quantity text ud).1 = ConvState.QUANTITY ∧
        (get_custom_quantity text ud).2.1 = ud) ∧
    (pyInt? text = none →
      (get_custom_quantity text ud).1 = ConvState.QUANTITY ∧
        (get_custom_quantity text ud).2.1 = ud) := by
  refine ⟨?_, ?_, ?_⟩
  · intro q hq h1 h50
    simp only [get_custom_quantity, hq]
    rw [if_neg (by omega), if_neg (by omega)]
  · intro q hq hout
    simp only [get_custom_quantity, hq]
    rcases hout with h | h
    · rw [if_pos h]
      exact ⟨rfl, rfl⟩
    · rw [if_neg (by omega), if_pos h]
      exact ⟨rfl, rfl⟩
  · intro hq
    simp [get_custom_quantity, hq]

/-- Witness for C4 at the concrete input "7". -/
theorem get_custom_quantity_spec_witness :
    pyInt? "7" = some 7 ∧
      get_custom_quantity "7" emptyUD
        = (ConvState.CONFIRMATION, { emptyUD with quantity := some (7 : Int).toNat },
           ["ORDER SUMMARY"]) :=
  ⟨by decide, (get_custom_quantity_spec "7" emptyUD).1 7 (by decide) (by decide) (by decide)⟩

/-! ### Claim C8 -/

/-- C8: inserting an order whose status is not `completed` changes neither the
reported total revenue nor today's revenue — both sums range over completed
orders only. -/
theorem statistics_revenue_only_completed (db : DB) (now : Nat) (o : OrderRow)
    (h : o.status ≠ "completed") :
    (get_statistics { db with orders := o :: db.orders } now).revenue
        = (get_statistics db now).revenue ∧
    (get_statistics { db with orders := o :: db.orders } now).today_revenue
        = (get_statistics db now).today_revenue := by
  have hb : (o.status == "completed") = false := by
    simpa using h
  constructor
  · simp [get_statistics, List.filter_cons, hb]
  · simp [get_statistics, List.filter_cons, hb]

/-- Witness for C8: a pending order contributes nothing to either revenue sum. -/
theorem statistics_revenue_only_completed_witness :
    (⟨1, 7, "Math Book", 1, 170, "pending", none, none, 0, none⟩ : OrderRow).status
        ≠ "completed" ∧
    (get_statistics
        { emptyDB with
            orders := (⟨1, 7, "Math Book", 1, 170, "pending", none, none, 0, none⟩ : OrderRow)
              :: emptyDB.orders } 0).revenue
      = (get_statistics emptyDB 0).revenue :=
  ⟨by decide,
   (statistics_revenue_only_completed emptyDB 0
      ⟨1, 7, "Math Book", 1, 170, "pending", none, none, 0, none⟩ (by decide)).1⟩

/-! ### Claim C5 -/

/-- C5: `create_order` appends exactly one order row and, in the same
transaction, bumps the owning user's `total_orders` by 1 and `total_spent` by
the order's `total_price`; consequently it preserves the invariant that every
user's aggregates equal the count/sum of that user's orders.  Atomicity is
inherent to the model: the whole function is one database transformer, mirroring
the single `commit` of main.py lines 133-160. -/
theorem create_order_updates_user_aggregates (db : DB) (now uid : Nat) (pname : String)
    (qty total : Nat) (u : UserRow) (hu : u ∈ db.users) (hid : u.user_id = uid) :
    ((create_order db now uid pname qty total).2.orders
        = db.orders ++ [newOrderRow db.next_order_id uid pname qty total now]) ∧
    ({ u with total_orders := u.total_orders + 1, total_spent := u.total_spent + total }
        ∈ (create_order db now uid pname qty total).2.users) ∧
    (userAggConsistent db → userAggConsistent (create_order db now uid pname qty total).2) := by
  refine ⟨rfl, ?_, ?_⟩
  · have hmem := List.mem_map_of_mem (fun v : UserRow =>
      if v.user_id == uid then
        { v with total_orders := v.total_orders + 1, total_spent := v.total_spent + total }
      else v) hu
    simpa [create_order, hid] using hmem
  · intro hcons u' hu'
    simp only [create_order] at hu'
    obtain ⟨u0, hu0, rfl⟩ := List.mem_map.mp hu'
    have hbase := hcons u0 hu0
    by_cases h0 : u0.user_id = uid
    · have hpred : (u0.user_id == uid) = true := by simpa using h0
      have hnew : ((newOrderRow db.next_order_id uid pname qty total now).user_id
          == u0.user_id) = true := by
        simp [newOrderRow, h0]
      constructor
      · simp only [hpred, if_true, create_order, List.filter_append, List.length_append,
          List.filter_cons, hnew]
        simp [hbase.1]
      · simp only [hpred, if_true, create_order, List.filter_append, sumPrices_append,
          List.filter_cons, hnew]
        simp [hbase.2, sumPrices, newOrderRow]
    · have hpred : (u0.user_id == uid) = false := by simpa using h0
      have hnewp : (newOrderRow db.next_order_id uid pname qty total now).user_id
          ≠ u0.user_id := fun hc => h0 hc.symm
      have hnew : ((newOrderRow db.next_order_id uid pname qty total now).user_id
          == u0.user_id) = false := by
        simpa using hnewp
      constructor
      · simp only [hpred, if_false, create_order, List.filter_append, List.length_append,
          List.filter_cons, hnew]
        simp [hbase.1, hnewp]
      · simp only [hpred, if_false, create_order, List.filter_append, sumPrices_append,
          List.filter_cons, hnew]
        simp [hbase.2, sumPrices, hnewp]

/-- The witness database for C5: the registered user 7 with empty aggregates. -/
def dbC5 : DB := ⟨[⟨7, none, "Dara", none, none, none, 0, 0, 0⟩], [], [], 1⟩

/-- The witness user row for C5. -/
def uC5 : UserRow := ⟨7, none, "Dara", none, none, none, 0, 0, 0⟩

/-- Witness for C5 at a concrete database. -/
theorem create_order_updates_user_aggregates_witness :
    ((create_order dbC5 100 7 "Math Book" 3 510).2.orders
        = dbC5.orders ++ [newOrderRow dbC5.next_order_id 7 "Math Book" 3 510 100]) ∧
    ({ uC5 with total_orders := uC5.total_orders + 1, total_spent := uC5.total_spent + 510 }
        ∈ (create_order dbC5 100 7 "Math Book" 3 510).2.users) ∧
    (userAggConsistent dbC5 → userAggConsistent (create_order dbC5 100 7 "Math Book" 3 510).2) :=
  create_order_updates_user_aggregates dbC5 100 7 "Math Book" 3 510 uC5 (by decide) rfl

/-! ### Claim C2 -/

/-- C2 (amended): with no search text, and each order owned by exactly one
registered user (the users table has the owner, and user ids are unique — both
schema invariants), the count query and the full first page of the list query
agree: `countOrders(filter) = len(listOrders(page=1, pageSize=count, filter))`.
The search-text case fails because the count query accepts no search parameter
(see the counterexample). -/
theorem count_eq_list_length_without_search (db : DB) (now : Nat) (sF dF : Option String)
    (hown : ∀ o ∈ db.orders, (db.users.filter (fun u => u.user_id == o.user_id)).length = 1) :
    get_orders_count db now sF dF
      = (get_orders_paginated_with db now 1 (get_orders_count db now sF dF)
          sF dF none).length := by
  have hjoin := joinRows_filter_length_eq db.users now sF dF db.orders hown
  simp only [get_orders_paginated_with, sqliteWindow]
  have hoff : (((1 : Int) - 1) * ((get_orders_count db now sF dF : Nat) : Int)).toNat = 0 := by
    norm_num
  rw [hoff, List.drop_zero, List.length_take, length_sortDescBy, hjoin]
  simp [get_orders_count]

/-- The database for C2: one registered user owning one order. -/
def dbC2 : DB :=
  ⟨[⟨7, none, "Alice", none, none, some "A1", 0, 1, 170⟩],
   [⟨1, 7, "Math Book", 1, 170, "pending", none, none, 50, none⟩], [], 2⟩

/-- C2 counterexample: with search text `"zzz"` (matching nothing) the count
query still reports 1 — it ignores the search filter entirely — while the list
query under the same filters returns no rows: count ≠ len(list). -/
theorem count_list_drift_on_search :
    get_orders_count dbC2 50 none none = 1 ∧
    get_orders_paginated_with dbC2 50 1 (get_orders_count dbC2 50 none none) none none
        (some "zzz") = [] := by
  constructor
  · decide
  · decide

/-- Witness for C2 at the concrete one-order database. -/
theorem count_eq_list_length_witness :
    get_orders_count dbC2 50 none none
      = (get_orders_paginated_with dbC2 50 1 (get_orders_count dbC2 50 none none)
          none none none).length :=
  count_eq_list_length_without_search dbC2 50 none none (by decide)

/-! ### Claim C3 -/

/-- C3 (amended): for a requested page ≥ 1 with no search text (and every order
owned by a registered user), `show_admin_orders` clamps the page to
`[1, total_pages]` — a page beyond the last settles on the last page — and the
resulting window is empty only when the filtered count is zero.  With search
text the property fails because `total_pages` is computed from the search-blind
count (see the counterexample); the code also never clamps pages below 1, but
SQLite treats the resulting negative offset as 0, so such requests behave like
page 1 at the row level. -/
theorem show_admin_orders_clamps_page (db : DB) (now : Nat) (page : Int) (sF : String)
    (dF : Option String) (hpage : 1 ≤ page)
    (hown : ∀ o ∈ db.orders, 1 ≤ (db.users.filter (fun u => u.user_id == o.user_id)).length) :
    1 ≤ (show_admin_orders db now page sF dF none).page ∧
    (show_admin_orders db now page sF dF none).page
        ≤ ((show_admin_orders db now page sF dF none).total_pages : Int) ∧
    (show_admin_orders db now page sF dF none).page
        = min page ((show_admin_orders db now page sF dF none).total_pages : Int) ∧
    ((show_admin_orders db now page sF dF none).rows = []
        → (show_admin_orders db now page sF dF none).total_orders = 0) := by
  simp only [show_admin_orders]
  have htp1 : 1 ≤ max 1 ((get_orders_count db now (some sF) dF + (ORDERS_PER_PAGE - 1))
      / ORDERS_PER_PAGE) := le_max_left 1 _
  have htp1i : (1 : Int) ≤ ((max 1 ((get_orders_count db now (some sF) dF
      + (ORDERS_PER_PAGE - 1)) / ORDERS_PER_PAGE) : Nat) : Int) := by exact_mod_cast htp1
  refine ⟨?_, ?_, ?_, ?_⟩
  · split
    · exact htp1i
    · exact hpage
  · split
    · exact le_refl _
    · omega
  · split
    · omega
    · omega
  · intro hrows
    by_contra hcnt0
    have hcnt1 : 1 ≤ get_orders_count db now (some sF) dF := by omega
    set cnt := get_orders_count db now (some sF) dF with hcntdef
    set tp := max 1 ((cnt + (ORDERS_PER_PAGE - 1)) / ORDERS_PER_PAGE) with htpdef
    set pg : Int := if page > (tp : Int) then (tp : Int) else page with hpgdef
    have hp1 : 1 ≤ pg := by
      rw [hpgdef]; split
      · exact htp1i
      · exact hpage
    have hple : pg ≤ (tp : Int) := by
      rw [hpgdef]; split
      · exact le_refl _
      · omega
    have hdiv1 : 1 ≤ (cnt + (ORDERS_PER_PAGE - 1)) / ORDERS_PER_PAGE := by
      rw [Nat.le_div_iff_mul_le (by norm_num [ORDERS_PER_PAGE])]
      simp only [ORDERS_PER_PAGE]
      omega
    have htpeq : tp = (cnt + (ORDERS_PER_PAGE - 1)) / ORDERS_PER_PAGE := by
      rw [htpdef]; exact max_eq_right hdiv1
    have htp10 : tp * ORDERS_PER_PAGE ≤ cnt + (ORDERS_PER_PAGE - 1) := by
      rw [htpeq]; exact Nat.div_mul_le_self _ _
    have hL := joinRows_filter_length_ge db.users now (some sF) dF db.orders hown
    simp only [get_orders_paginated, get_orders_paginated_with, sqliteWindow] at hrows
    rcases List.take_eq_nil_iff.mp hrows with h10 | hdropnil
    · simp [ORDERS_PER_PAGE] at h10
    · have hlen := List.drop_eq_nil_iff.mp hdropnil
      rw [length_sortDescBy] at hlen
      have hcle : cnt ≤ ((joinRows db.users db.orders).filter
          (fun r => listingWhere now (some sF) dF none r)).length := by
        simpa [hcntdef, get_orders_count] using hL
      have hoff : ((pg - 1) * ((ORDERS_PER_PAGE : Nat) : Int)).toNat
          = (pg.toNat - 1) * ORDERS_PER_PAGE := by
        simp only [ORDERS_PER_PAGE]
        omega
      rw [hoff] at hlen
      have hkle : pg.toNat ≤ tp := by omega
      have hk1 : 1 ≤ pg.toNat := by omega
      simp only [ORDERS_PER_PAGE] at htp10 hlen
      omega

/-- The database for the C3 counterexample: one user, eleven orders, exactly
one of which is the product "Math". -/
def dbC3 : DB :=
  ⟨[⟨7, none, "Alice", none, none, some "A1", 0, 11, 1870⟩],
   (List.range 11).map (fun i =>
     ⟨i + 1, 7, if i == 0 then "Math" else "BookA", 1, 170, "pending", none, none,
      1000 + i, none⟩), [], 12⟩

/-- C3 counterexample: with search text "Math" (one true match), requesting
page 2 — within the bound computed from the search-blind count 11 — windows the
one-row result list at offset 10 and shows an empty page, even though the true
filtered count is 1, not 0. -/
theorem search_page_empty_window :
    (show_admin_orders dbC3 2000 2 "all" none (some "Math")).rows = [] ∧
    get_orders_paginated_with dbC3 2000 1 11 (some "all") none (some "Math")
      = [⟨1, "Alice", some "A1", none, "Math", 1, 170, "pending", none, 1000, none⟩] := by
  constructor
  · decide
  · decide

/-- The database for the C3 witness: one user owning 23 orders with distinct
timestamps (the spec's `total=23, pageSize=10` scenario). -/
def dbC3w : DB :=
  ⟨[⟨7, none, "Alice", none, none, some "A1", 0, 23, 3910⟩],
   (List.range 23).map (fun i =>
     ⟨i + 1, 7, "Math Book", 1, 170, "pending", none, none, 1000 + i, none⟩), [], 24⟩

/-- Witness for C3: 23 orders, page 5 requested → clamped to page 3 of 3, and
the window holds exactly the last 3 rows (the three oldest orders). -/
theorem show_admin_orders_clamps_page_witness :
    (1 ≤ (show_admin_orders dbC3w 2000 5 "all" none none).page ∧
     (show_admin_orders dbC3w 2000 5 "all" none none).page
        ≤ ((show_admin_orders dbC3w 2000 5 "all" none none).total_pages : Int) ∧
     (show_admin_orders dbC3w 2000 5 "all" none none).page
        = min 5 ((show_admin_orders dbC3w 2000 5 "all" none none).total_pages : Int) ∧
     ((show_admin_orders dbC3w 2000 5 "all" none none).rows = []
        → (show_admin_orders dbC3w 2000 5 "all" none none).total_orders = 0)) ∧
    (show_admin_orders dbC3w 2000 5 "all" none none).total_pages = 3 ∧
    (show_admin_orders dbC3w 2000 5 "all" none none).page = 3 ∧
    ((show_admin_orders dbC3w 2000 5 "all" none none).rows.map (fun r => r.order_id))
      = [3, 2, 1] :=
  ⟨show_admin_orders_clamps_page dbC3w 2000 5 "all" none (by decide) (by decide),
   by decide, by decide, by decide⟩

/-! ### Claim C1 -/

/-- C1 (amended): the `admin_only` guard — applied to the message-based admin
entry points `admin_panel` and `handle_admin_commands` only — refuses every
non-admin identity with the fixed denial message and leaves the database
untouched, never entering the wrapped handler; but the callback-based admin
operations carry no identity check at all: `handle_admin_order_action` (and its
sibling callback handlers, registered at main.py lines 1973-1976 without the
decorator) computes the same result for every caller identity. -/
theorem admin_gate_and_ungated_action :
    (∀ (handler : Nat → DB → DB × List String) (uid : Nat) (db : DB),
        uid ≠ ADMIN_ID → admin_only handler uid db = (db, [DENIAL_MESSAGE])) ∧
    (∀ (uid uid' : Nat) (db : DB) (ud : UserData) (data : String),
        handle_admin_order_action uid db ud data = handle_admin_order_action uid' db ud data) :=
  ⟨fun _ _ _ h => by simp [admin_only, h], fun _ _ _ _ _ => rfl⟩

/-- The database for C1: one user owning one pending order. -/
def dbC1 : DB :=
  ⟨[⟨7, none, "Alice", none, none, some "A1", 0, 1, 170⟩],
   [⟨1, 7, "Math Book", 1, 170, "pending", none, none, 50, none⟩], [], 2⟩

/-- Witness for C1: the guard denies identity 42, and the order-action handler
literally ignores the caller identity. -/
theorem admin_gate_witness :
    admin_only (fun _ db => (db, [])) 42 dbC1 = (dbC1, [DENIAL_MESSAGE]) ∧
    handle_admin_order_action 42 dbC1 emptyUD "admin_confirm_1"
      = handle_admin_order_action 43 dbC1 emptyUD "admin_confirm_1" :=
  ⟨admin_gate_and_ungated_action.1 (fun _ db => (db, [])) 42 dbC1 (by decide),
   admin_gate_and_ungated_action.2 42 43 dbC1 emptyUD "admin_confirm_1"⟩

/-- C1 counterexample: the non-admin identity 42 invokes the admin confirm
action on order 1 and the status change executes — the underlying query runs
and no denial message is produced, refuting the claim that every admin-only
operation refuses non-admin identities. -/
theorem non_admin_confirm_executes :
    42 ≠ ADMIN_ID ∧
    ((handle_admin_order_action 42 dbC1 emptyUD "admin_confirm_1").db.orders.map
        (fun o => o.status)) = ["confirmed"] ∧
    DENIAL_MESSAGE ∉ (handle_admin_order_action 42 dbC1 emptyUD "admin_confirm_1").msgs := by
  refine ⟨by decide, by decide, by decide⟩

/-! ### Claim C7 -/

/-- C7 (amended): an admin confirm on a nonexistent order id leaves the
database unchanged and finds no owner to notify — but instead of a not-found
outcome it still reports the fixed success message.  (The view/contact branches
on a missing id produce no message at all; only the user-side flows show
dedicated empty-state messages.) -/
theorem admin_confirm_missing_order_reports_success (db : DB) (ud : UserData) (uid : Nat)
    (data : String) (oid : Int)
    (hview : strStartsWith data "admin_view_" = false)
    (hconf : strStartsWith data "admin_confirm_" = true)
    (hid : pyInt? ((splitUnderscore data).getD 2 "") = some oid)
    (hmiss : ∀ o ∈ db.orders, (o.order_id : Int) ≠ oid) :
    (handle_admin_order_action uid db ud data).db = db ∧
    (handle_admin_order_action uid db ud data).msgs
      = ["✅ **Order #" ++ toString oid ++ " confirmed!**"] := by
  have hfalse : ∀ o ∈ db.orders, ((o.order_id : Int) == oid) = false := fun o ho => by
    simpa using hmiss o ho
  have hmap : db.orders.map (fun o =>
      if (o.order_id : Int) == oid then
        { o with status := "confirmed", admin_notes := some "Confirmed by admin" }
      else o) = db.orders := map_update_no_match _ _ _ hfalse
  have hfind : db.orders.find? (fun o => (o.order_id : Int) == oid) = none :=
    List.find?_eq_none.mpr (fun o ho => by simp [hfalse o ho])
  have hstat : update_order_status db oid "confirmed" (some "Confirmed by admin")
      = (db, none) := by
    simp only [update_order_status, hmap, hfind, Option.map_none']
  refine ⟨?_, ?_⟩ <;>
    simp only [handle_admin_order_action, hview, hconf, hid, Bool.false_eq_true,
      eq_self_iff_true, ite_false, ite_true, hstat, List.append_nil, List.singleton_append]

/-- Witness for C7: confirming the absent order 5 on `dbC1` (which only holds
order 1) keeps the database and reports success. -/
theorem admin_confirm_missing_order_witness :
    (handle_admin_order_action 42 dbC1 emptyUD "admin_confirm_5").db = dbC1 ∧
    (handle_admin_order_action 42 dbC1 emptyUD "admin_confirm_5").msgs
      = ["✅ **Order #" ++ toString (5 : Int) ++ " confirmed!**"] :=
  admin_confirm_missing_order_reports_success dbC1 emptyUD 42 "admin_confirm_5" 5
    (by decide) (by decide) (by decide) (by decide)

/-- C7 counterexample: on the empty database the admin confirm action for order
5 answers with the success message "✅ **Order #5 confirmed!**" — the claim that
a lookup miss surfaces a not-found outcome and never reports success is false. -/
theorem confirm_nonexistent_order_success_message :
    (handle_admin_order_action ADMIN_ID emptyDB emptyUD "admin_confirm_5").db = emptyDB ∧
    (handle_admin_order_action ADMIN_ID emptyDB emptyUD "admin_confirm_5").msgs
      = ["✅ **Order #5 confirmed!**"] := by
  constructor
  · decide
  · decide

/-! ### Claims C6 and C10: the unconditional payment update -/

/-- The targeted order is rewritten in place by `update_order_payment`,
whatever its previous status, payment method, or proof marker. -/
theorem update_order_payment_mem (db : DB) (oid : Nat) (pm : String) (pf : Option String)
    (o : OrderRow) (ho : o ∈ db.orders) (hid : o.order_id = oid) :
    { o with payment_method := some pm, payment_proof := pf,
             status := "awaiting_verification" }
      ∈ (update_order_payment db (oid : Int) pm pf).orders := by
  subst hid
  have hmem := List.mem_map_of_mem (fun x : OrderRow =>
    if (x.order_id : Int) == ((o.order_id : Nat) : Int) then
      { x with payment_method := some pm, payment_proof := pf,
               status := "awaiting_verification" }
    else x) ho
  simpa [update_order_payment] using hmem

/-- C6 (amended): the admin actions only assign `confirmed`/`rejected`/
`completed`, but the publicly reachable payment operations are not guarded by
the status machine: selecting "pay in person" and submitting a payment proof
both set the targeted order's status to `awaiting_verification` regardless of
its prior status — including the terminal statuses `rejected` and `completed`.
`o` is an arbitrary targeted order, with any status. -/
theorem payment_ops_reset_status_unconditionally (db : DB) (ud ud2 : UserData)
    (uid oid : Nat) (ds : String) (o : OrderRow) (ho : o ∈ db.orders) (hoid : o.order_id = oid)
    (hk : strStartsWith ("pay_cash_" ++ ds) "pay_khqr_" = false)
    (hc : strStartsWith ("pay_cash_" ++ ds) "pay_cash_" = true)
    (hsplit : (splitUnderscore ("pay_cash_" ++ ds)).getD 2 "" = ds)
    (hds : pyInt? ds = some ((oid : Nat) : Int))
    (hud2 : ud2.awaiting_proof_for = some ds) :
    ({ o with payment_method := some "Cash", payment_proof := none,
              status := "awaiting_verification" }
        ∈ (handle_payment_option db ud true ("pay_cash_" ++ ds)).db.orders) ∧
    ({ o with payment_method := some "Bank Transfer", payment_proof := some "proof_provided",
              status := "awaiting_verification" }
        ∈ (handle_payment_proof uid db ud2 true true).db.orders) := by
  have hds' : ds ≠ "" := by
    intro h
    rw [h] at hds
    have hempty : pyInt? "" = none := by decide
    rw [hempty] at hds
    cases hds
  have hne : (ds == "") = false := by simpa using hds'
  constructor
  · simp only [handle_payment_option, hk, hc, hsplit, update_order_payment_sql, hds,
      Bool.false_eq_true, if_false, if_true]
    exact update_order_payment_mem db oid "Cash" none o ho hoid
  · simp only [handle_payment_proof, hud2, Option.getD_some, hne, Bool.false_eq_true,
      if_false, if_true, update_order_payment_sql, hds]
    exact update_order_payment_mem db oid "Bank Transfer" (some "proof_provided") o ho hoid

/-- The database for the C6 witness: order 1 is in the terminal status
`rejected` (with a recorded payment proof). -/
def dbC6w : DB :=
  ⟨[⟨7, none, "Alice", none, none, some "A1", 0, 1, 170⟩],
   [⟨1, 7, "Math Book", 1, 170, "rejected", some "Cash", some "proofX", 50, none⟩], [], 2⟩

/-- Witness for C6: the rejected order 1 is dragged back to
`awaiting_verification` by both payment paths. -/
theorem payment_ops_reset_status_witness :
    ({ (⟨1, 7, "Math Book", 1, 170, "rejected", some "Cash", some "proofX", 50, none⟩ :
          OrderRow) with
        payment_method := some "Cash", payment_proof := none,
        status := "awaiting_verification" }
      ∈ (handle_payment_option dbC6w emptyUD true ("pay_cash_" ++ "1")).db.orders) ∧
    ({ (⟨1, 7, "Math Book", 1, 170, "rejected", some "Cash", some "proofX", 50, none⟩ :
          OrderRow) with
        payment_method := some "Bank Transfer", payment_proof := some "proof_provided",
        status := "awaiting_verification" }
      ∈ (handle_payment_proof 7 dbC6w
          { emptyUD with awaiting_proof_for := some "1" } true true).db.orders) :=
  payment_ops_reset_status_unconditionally dbC6w emptyUD
    { emptyUD with awaiting_proof_for := some "1" } 7 1 "1"
    ⟨1, 7, "Math Book", 1, 170, "rejected", some "Cash", some "proofX", 50, none⟩
    (by decide) rfl (by decide) (by decide) (by decide) (by decide) rfl

/-- The database for the C6 counterexample: one completed order. -/
def dbC6 : DB :=
  ⟨[⟨7, none, "Alice", none, none, some "A1", 0, 1, 170⟩],
   [⟨1, 7, "Math Book", 1, 170, "completed", some "Cash", none, 50, none⟩], [], 2⟩

/-- C6 counterexample: order 1 is in the terminal status `completed`, yet the
payment update moves it back to `awaiting_verification` — a transition the
claim says no publicly reachable operation performs. -/
theorem completed_order_reset_by_payment :
    (dbC6.orders.map (fun o => o.status)) = ["completed"] ∧
    ((update_order_payment dbC6 1 "KHQR" none).orders.map (fun o => o.status))
      = ["awaiting_verification"] := by
  constructor
  · decide
  · decide

/-- C10: a payment update carrying no proof argument — exactly what the
"QR payment" and "pay in person" selections issue — overwrites the order's
`payment_proof` with NULL and sets `status = 'awaiting_verification'`,
regardless of the prior values of both fields.  `o` is arbitrary: in particular
a previously recorded proof marker is erased. -/
theorem payment_without_proof_clears_marker (db : DB) (ud : UserData) (oid : Nat)
    (ds : String) (o : OrderRow) (ho : o ∈ db.orders) (hoid : o.order_id = oid)
    (hk : strStartsWith ("pay_khqr_" ++ ds) "pay_khqr_" = true)
    (hsplit : (splitUnderscore ("pay_khqr_" ++ ds)).getD 2 "" = ds)
    (hds : pyInt? ds = some ((oid : Nat) : Int)) :
    ((handle_payment_option db ud true ("pay_khqr_" ++ ds)).db
        = update_order_payment db (oid : Int) "KHQR" none) ∧
    ({ o with payment_method := some "KHQR", payment_proof := none,
              status := "awaiting_verification" }
        ∈ (handle_payment_option db ud true ("pay_khqr_" ++ ds)).db.orders) ∧
    ({ o with payment_method := some "Cash", payment_proof := none,
              status := "awaiting_verification" }
        ∈ (update_order_payment db (oid : Int) "Cash" none).orders) := by
  have hdb : (handle_payment_option db ud true ("pay_khqr_" ++ ds)).db
      = update_order_payment db (oid : Int) "KHQR" none := by
    simp only [handle_payment_option, hk, if_true, update_order_payment_sql, hsplit, hds]
  refine ⟨hdb, ?_, ?_⟩
  · rw [hdb]
    exact update_order_payment_mem db oid "KHQR" none o ho hoid
  · exact update_order_payment_mem db oid "Cash" none o ho hoid

/-- The database for the C10 witness: order 1 already carries a proof marker. -/
def dbC10 : DB :=
  ⟨[⟨7, none, "Alice", none, none, some "A1", 0, 1, 170⟩],
   [⟨1, 7, "Math Book", 1, 170, "confirmed", some "Bank Transfer",
     some "proof_provided", 50, none⟩], [], 2⟩

/-- Witness for C10: re-selecting KHQR on order 1 erases its stored
`proof_provided` marker and resets the status. -/
theorem payment_without_proof_clears_marker_witness :
    ((handle_payment_option dbC10 emptyUD true ("pay_khqr_" ++ "1")).db
        = update_order_payment dbC10 ((1 : Nat) : Int) "KHQR" none) ∧
    ({ (⟨1, 7, "Math Book", 1, 170, "confirmed", some "Bank Transfer",
          some "proof_provided", 50, none⟩ : OrderRow) with
        payment_method := some "KHQR", payment_proof := none,
        status := "awaiting_verification" }
      ∈ (handle_payment_option dbC10 emptyUD true ("pay_khqr_" ++ "1")).db.orders) ∧
    ({ (⟨1, 7, "Math Book", 1, 170, "confirmed", some "Bank Transfer",
          some "proof_provided", 50, none⟩ : OrderRow) with
        payment_method := some "Cash", payment_proof := none,
        status := "awaiting_verification" }
      ∈ (update_order_payment dbC10 ((1 : Nat) : Int) "Cash" none).orders) :=
  payment_without_proof_clears_marker dbC10 emptyUD 1 "1"
    ⟨1, 7, "Math Book", 1, 170, "confirmed", some "Bank Transfer",
     some "proof_provided", 50, none⟩
    (by decide) rfl (by decide) (by decide) (by decide)

/-! ### Claim C9 -/

/-- C9: evaluation of the Math-Book scenario.  The code cannot run it: the
conversation entry pattern never matches `product_math_book`, and
`select_product` itself parses the id as `split("_")[1] = "math"`, which is
absent from `PRODUCTS` (a `KeyError`), even though the keyboard generates
`product_math_book` and the catalog prices "Math Book" at $1.70 under the key
`math_book`.  Downstream of the selection the scenario behaves exactly as the
claim says: name "Dara", group "A1", skipped phone, quantity 3 yield the order
(product "Math Book", quantity 3, total 510 cents = $5.10, status `pending`)
and the user's aggregates become total_orders = 1, total_spent = 510 cents. -/
theorem math_book_scenario_eval :
    conv_entry_matches "product_math_book" = false ∧
    (splitUnderscore "product_math_book").getD 1 "" = "math" ∧
    PRODUCTS.find? (fun p => p.pid == "math") = none ∧
    select_product "product_math_book" emptyUD = none ∧
    (PRODUCTS.find? (fun p => p.pid == "math_book")).map (fun p => p.price) = some 170 ∧
    mathBookScenarioRest = some
      { users := [⟨7, some "dara", "Dara", none, some "Not specified", some "A1", 0, 1, 510⟩],
        orders := [⟨1, 7, "Math Book", 3, 510, "pending", none, none, 100, none⟩],
        products := [], next_order_id := 2 } := by
  refine ⟨by decide, by decide, by decide, by decide, by decide, by decide⟩
